import Mathlib

/-!
Verification of the spotify-yt-sync reconciliation core
(`rootfs/opt/spotify_yt_sync/core/sync_engine.py`, `core/cache.py`,
`clients/youtube.py`) against its natural-language specification.

The Python code is shallowly embedded: Python strings are modelled as
`List Char` (`PyStr`), Python `dict`s as association lists or functions,
exceptions as `Except` / explicit outcome values, and wall-clock time as
an explicit `now : Nat` parameter. Disk and network I/O (cache file
persistence, HTTP transport) is outside the embedding; provider calls are
abstracted by their observable outcomes, exactly the granularity the spec
uses for its external interfaces.
-/

namespace SpotifyYtSync

/-- A Python string, modelled as its list of characters. -/
abbrev PyStr := List Char

/-- Python `s.lower()` (ASCII case folding, which is all this code base
exercises). -/
def pyLower (s : PyStr) : PyStr := s.map Char.toLower

/-- Python substring test `needle in haystack`. -/
def strContains : PyStr → PyStr → Bool
  | [], needle => needle.isEmpty
  | c :: rest, needle => needle.isPrefixOf (c :: rest) || strContains rest needle

/-- Python `s.strip()`: remove leading and trailing whitespace. -/
def pyStrip (s : PyStr) : PyStr :=
  ((s.dropWhile Char.isWhitespace).reverse.dropWhile Char.isWhitespace).reverse

/-- Python `s.split()` with no argument: split on whitespace runs,
discarding empty fields. -/
def pySplit (s : PyStr) : List PyStr :=
  (s.foldr
    (fun c acc =>
      if c.isWhitespace then [] :: acc
      else
        match acc with
        | [] => [[c]]
        | w :: ws => (c :: w) :: ws)
    []).filter (fun w => !w.isEmpty)

/-- Python `" ".join(ws)`. -/
def joinSpace : List PyStr → PyStr
  | [] => []
  | [w] => w
  | w :: ws => w ++ ' ' :: joinSpace ws

/-- Model of `sync_engine._normalize`: `" ".join(s.lower().split())`. -/
def pyNormalize (s : PyStr) : PyStr := joinSpace (pySplit (pyLower s))

/-! ## TTL cache (`core/cache.py`, class `VideoCache`) -/

/-- The constant `TTL_SECONDS = 30 * 24 * 60 * 60`. -/
def TTL_SECONDS : Nat := 30 * 24 * 60 * 60

/-- Model of `VideoCache._make_key`:
`f"{track.lower().strip()}\x00{artist.lower().strip()}"`. -/
def makeKey (track artist : PyStr) : PyStr :=
  pyStrip (pyLower track) ++ '\x00' :: pyStrip (pyLower artist)

/-- A cache value: `{"video_id": ..., "cached_at": ...}` with the
timestamp in whole epoch seconds. -/
structure CacheEntry where
  videoId : PyStr
  cachedAt : Nat
deriving Repr, DecidableEq

/-- In-memory state of `VideoCache`: the key-value store (`self._cache`,
a dict, modelled as an association list with unique keys) and the dirty
flag (`self._dirty`). -/
structure VideoCache where
  entries : List (PyStr × CacheEntry)
  dirty : Bool
deriving Repr, DecidableEq

/-- Python dict assignment `d[k] = e`: overwrite in place if the key is
present, else append. -/
def dictWrite (es : List (PyStr × CacheEntry)) (k : PyStr) (e : CacheEntry) :
    List (PyStr × CacheEntry) :=
  if (es.lookup k).isSome then
    es.map (fun p => if p.1 == k then (k, e) else p)
  else es ++ [(k, e)]

/-- Model of `VideoCache.get(track, artist)` at wall-clock time `now`: returns the
cached video id iff present and not expired; an expired entry is deleted
and the store marked dirty as a side effect. -/
def VideoCache.get (vc : VideoCache) (now : Nat) (track artist : PyStr) :
    Option PyStr × VideoCache :=
  let key := makeKey track artist
  match vc.entries.lookup key with
  | none => (none, vc)
  | some e =>
    if now - e.cachedAt > TTL_SECONDS then
      (none, ⟨vc.entries.filter (fun p => p.1 != key), true⟩)
    else (some e.videoId, vc)

/-- Model of `VideoCache.set(track, artist, video_id)` at wall-clock time `now`:
writes a fresh entry and marks the store dirty only when the stored
video id differs from the one being written. -/
def VideoCache.set (vc : VideoCache) (now : Nat) (track artist videoId : PyStr) :
    VideoCache :=
  let key := makeKey track artist
  if (vc.entries.lookup key).map CacheEntry.videoId = some videoId then vc
  else ⟨dictWrite vc.entries key ⟨videoId, now⟩, true⟩

/-! ## Step 1 of the reconciliation algorithm: the mediaId → index map

`_find_lis_indices` builds `target_pos = {vid: i for i, vid in
enumerate(target)}`.  A Python dict comprehension assigns keys left to
right, each assignment overwriting any earlier one. -/

/-- One assignment `d[p.2] = p.1` of the dict comprehension. -/
def dictStep (d : PyStr → Option Nat) (p : Nat × PyStr) : PyStr → Option Nat :=
  fun k => if k == p.2 then some p.1 else d k

/-- The dict `target_pos = {vid: i for i, vid in enumerate(target)}` as a lookup
function. -/
def buildTargetPos (target : List PyStr) : PyStr → Option Nat :=
  target.enum.foldl dictStep (fun _ => none)

/-- The index of the last occurrence of `k` in `target`, if any. -/
def lastOccIdx (target : List PyStr) (k : PyStr) : Option Nat :=
  (target.enum.reverse.find? (fun p => k == p.2)).map Prod.fst

/-! ## Data model (`core/models.py`) -/

/-- Model of `Track`: a track from Spotify. -/
structure Track where
  name : PyStr
  artist : PyStr
  album : PyStr
  spotifyId : PyStr
deriving Repr, DecidableEq

/-- Model of `PlaylistItem`: an item of the YouTube playlist snapshot. -/
structure PlaylistItem where
  itemId : PyStr
  videoId : PyStr
  title : PyStr
  channel : PyStr
  position : Nat
deriving Repr, DecidableEq

/-- Model of `SyncOp`: one planned insert or delete. -/
structure SyncOp where
  action : PyStr
  position : Nat
  videoId : PyStr
  itemId : PyStr
  title : PyStr
deriving Repr, DecidableEq

/-! ## LIS computation (`_find_lis_indices`) -/

/-- The O(n²) DP of `_find_lis_indices`.  For each filtered item
`(currentIndex, targetIndex)` in order, computes its `dp` value (length
of the longest strictly-increasing-on-targetIndex subsequence ending
there) and `parent` pointer (`-1` for none).  The inner fold mirrors the
`for j in range(i)` loop: a later `j` replaces the recorded predecessor
only when it yields a strictly larger `dp`, so the first `j` attaining
the maximum is kept. -/
def lisCells (items : List (Nat × Nat)) : List ((Nat × Nat) × Nat × Int) :=
  items.foldl
    (fun acc x =>
      let cell := acc.enum.foldl
        (fun (st : Nat × Int) jc =>
          match jc with
          | (j, (item, dpj, _)) =>
            if item.2 < x.2 ∧ dpj + 1 > st.1 then (dpj + 1, Int.ofNat j) else st)
        (1, (-1 : Int))
      acc ++ [(x, cell.1, cell.2)])
    []

/-- Reconstruction along `parent` pointers (`while idx != -1`).  The
fuel argument bounds the walk; parents strictly decrease, so
`cells.length` steps always suffice. -/
def lisReconstruct (cells : List ((Nat × Nat) × Nat × Int)) :
    Nat → Int → List Nat
  | 0, _ => []
  | fuel + 1, idx =>
    if idx = -1 then []
    else
      match cells.get? idx.toNat with
      | none => []
      | some c => c.1.1 :: lisReconstruct cells fuel c.2.2

/-- Model of `_find_lis_indices(current, target)`: the indices in `current` whose
entries form the chosen longest target-order-increasing subsequence
(the Python set is modelled as the reconstruction list, used only
through membership and size). -/
def findLisIndices (current target : List PyStr) : List Nat :=
  match current, target with
  | [], _ => []
  | _ :: _, [] => []
  | _ :: _, _ :: _ =>
    let tp := buildTargetPos target
    let items := current.enum.filterMap (fun p => (tp p.2).map (fun t => (p.1, t)))
    match items with
    | [] => []
    | _ :: _ =>
      let cells := lisCells items
      let dps := cells.map (fun c => c.2.1)
      let maxDp := dps.foldl Nat.max 0
      let maxIdx := dps.indexOf maxDp
      lisReconstruct cells cells.length (Int.ofNat maxIdx)

/-! ## Operation planning (`_compute_operations`)

Python's `list.sort` is a stable ascending sort; it is modelled by a
stable insertion sort (`stableSort`). -/

/-- Insert `x` after every element `y` with `le y x` (stable placement
among equal keys). -/
def insertStable (le : SyncOp → SyncOp → Bool) (x : SyncOp) : List SyncOp → List SyncOp
  | [] => [x]
  | y :: ys => if le y x then y :: insertStable le x ys else x :: y :: ys

/-- Stable ascending sort, the model of `list.sort(key=...)`. -/
def stableSort (le : SyncOp → SyncOp → Bool) (l : List SyncOp) : List SyncOp :=
  l.foldl (fun acc x => insertStable le x acc) []

/-- The delete loop of `_compute_operations`: one delete per
destination entry whose mediaId is absent from the target, or present
but not at an index kept by the LIS. -/
def deleteOps (ytItems : List PlaylistItem) (targetIds : List PyStr)
    (lisIndices : List Nat) : List SyncOp :=
  ytItems.enum.filterMap (fun p =>
    if !(targetIds.contains p.2.videoId) then
      some ⟨"delete".data, p.2.position, p.2.videoId, p.2.itemId, p.2.title⟩
    else if !(lisIndices.contains p.1) then
      some ⟨"delete".data, p.2.position, p.2.videoId, p.2.itemId, p.2.title⟩
    else none)

/-- The insert loop of `_compute_operations` before sorting: one insert
per target position whose mediaId is not among the LIS-kept ids, with
`position` equal to the 0-based target index. -/
def insertOpsUnsorted (target : List (Track × PyStr)) (lisVideoIds : List PyStr) :
    List SyncOp :=
  target.enum.filterMap (fun p =>
    if !(lisVideoIds.contains p.2.2) then
      some ⟨"insert".data, p.1, p.2.2, [], p.2.1.name ++ " by ".data ++ p.2.1.artist⟩
    else none)

/-- Model of `_compute_operations(target, yt_items) -> (inserts, deletes)`;
`inserts.sort(key=lambda x: x.position)` is the stable ascending
sort. -/
def computeOperations (target : List (Track × PyStr)) (ytItems : List PlaylistItem) :
    List SyncOp × List SyncOp :=
  let currentIds := ytItems.map PlaylistItem.videoId
  let targetIds := target.map Prod.snd
  let lisIndices := findLisIndices currentIds targetIds
  let lisVideoIds := lisIndices.filterMap (fun i => currentIds.get? i)
  (stableSort (fun a b => decide (a.position ≤ b.position))
    (insertOpsUnsorted target lisVideoIds),
   deleteOps ytItems targetIds lisIndices)

/-! ## Operation execution (`_execute_operations`) -/

/-- The observable outcome of one mutating provider call
(`add_to_playlist` / `remove_from_playlist`): normal return of
`True`/`False`, a raised `SyncAbortError`, or any other raised exception
`e`, carried with `str(e)`.  A quota-exhaustion failure is
`raised "Quota exceeded: ..."`, since `YouTubeQuotaExceededError` is an
ordinary `Exception` subclass whose message starts with
`"Quota exceeded"`. -/
inductive CallOutcome where
  | ok : CallOutcome
  | failed : CallOutcome
  | abortError : CallOutcome
  | raised : PyStr → CallOutcome
deriving Repr, DecidableEq

/-- Result of one execution phase: operations applied successfully
(`count`), the error log so far, whether the phase returned early
(`halted`), and — as observational instrumentation — the list of
operations for which a provider call was issued, in order. -/
structure PhaseResult where
  count : Nat
  errors : List PyStr
  halted : Bool
  trace : List SyncOp
deriving Repr, DecidableEq

/-- One phase of `_execute_operations`.  `out k` is the outcome of the
`k`-th provider call of the phase.  `failPre`, `abortPre`, `errPre` are
the message prefixes, instantiated below for the insert and delete
loops. -/
def execPhase (failPre abortPre errPre : PyStr) (out : Nat → CallOutcome) :
    List SyncOp → Nat → Nat → List PyStr → PhaseResult
  | [], _, count, errs => ⟨count, errs, false, []⟩
  | op :: rest, k, count, errs =>
    match out k with
    | .ok =>
      let r := execPhase failPre abortPre errPre out rest (k + 1) (count + 1) errs
      ⟨r.count, r.errors, r.halted, op :: r.trace⟩
    | .failed =>
      let r := execPhase failPre abortPre errPre out rest (k + 1) count
        (errs ++ [failPre ++ op.title])
      ⟨r.count, r.errors, r.halted, op :: r.trace⟩
    | .abortError =>
      ⟨count, errs ++ [abortPre ++ op.title], true, [op]⟩
    | .raised msg =>
      let es := pyLower msg
      if strContains es "409".data || strContains es "service_unavailable".data then
        ⟨count, errs ++ ["ABORT: ".data ++ op.title ++ " - ".data ++ msg], true, [op]⟩
      else
        let errs2 := errs ++ [errPre ++ op.title ++ ": ".data ++ msg]
        if strContains es "quota".data then ⟨count, errs2, true, [op]⟩
        else
          let r := execPhase failPre abortPre errPre out rest (k + 1) count errs2
          ⟨r.count, r.errors, r.halted, op :: r.trace⟩

/-- The insert loop of `_execute_operations`. -/
def execInserts : (Nat → CallOutcome) → List SyncOp → Nat → Nat → List PyStr → PhaseResult :=
  execPhase "Failed to add: ".data "ABORT: 409 error on add ".data "Error adding ".data

/-- The delete loop of `_execute_operations`. -/
def execDeletes : (Nat → CallOutcome) → List SyncOp → Nat → Nat → List PyStr → PhaseResult :=
  execPhase "Failed to remove: ".data "ABORT: 409 error on remove ".data "Error removing ".data

/-- Overall result of `_execute_operations`: `(added, removed, errors)`
plus the instrumentation trace of attempted operations. -/
structure ExecResult where
  added : Nat
  removed : Nat
  errors : List PyStr
  trace : List SyncOp
deriving Repr, DecidableEq

/-- Model of `_execute_operations(inserts, deletes)`: the insert loop runs first;
if it returned early the delete loop is never entered. -/
def executeOperations (inserts deletes : List SyncOp)
    (insOut delOut : Nat → CallOutcome) : ExecResult :=
  let pi := execInserts insOut inserts 0 0 []
  if pi.halted then ⟨pi.count, 0, pi.errors, pi.trace⟩
  else
    let pd := execDeletes delOut deletes 0 0 pi.errors
    ⟨pi.count, pd.count, pd.errors, pi.trace ++ pd.trace⟩

/-! ## Search scoring (`clients/youtube.py`, `_find_best_match` /
`_fuzzy_contains`) -/

/-- A search result, as consumed by `_find_best_match`:
`{id.videoId, snippet.title, snippet.channelTitle}`. -/
structure SearchItem where
  videoId : PyStr
  title : PyStr
  channel : PyStr
deriving Repr, DecidableEq

/-- Model of `_fuzzy_contains(haystack, needle)`: direct containment, or — for a
multi-word needle — at least 70% of the words individually present.
Python compares `matches >= len(needle_words) * 0.7` in floating point;
for the word counts this program produces that test agrees with the
exact rational test `10 * matches ≥ 7 * len`, which is what is embedded. -/
def fuzzyContains (haystack needle : PyStr) : Bool :=
  if strContains haystack needle then true
  else
    let ws := pySplit needle
    if ws.length > 1 then
      decide (10 * (ws.filter (fun w => strContains haystack w)).length ≥ 7 * ws.length)
    else false

/-- The score `_find_best_match` computes for a candidate that passed
the eligibility gate (track name fuzzy-contained in the lowered title):
the initial `+10` for the gate plus all bonuses and penalties. -/
def candidateScore (track artist : PyStr) (item : SearchItem) : Int :=
  let trackL := pyLower track
  let artistL := pyLower artist
  let title := pyLower item.title
  let channel := pyLower item.channel
  (10 : Int)
  + (if fuzzyContains title artistL then 10 else 0)
  + (if fuzzyContains channel artistL then 5 else 0)
  + (if strContains title "official".data then 3 else 0)
  + (if strContains title "audio".data then 2 else 0)
  + (if strContains channel "vevo".data then 3 else 0)
  - (if strContains title "cover".data then 10 else 0)
  - (if strContains title "remix".data && !(strContains trackL "remix".data) then 5 else 0)
  - (if strContains title "live".data && !(strContains trackL "live".data) then 3 else 0)
  - (if strContains title "karaoke".data || strContains title "instrumental".data then 10 else 0)

/-- The `scored` list of `_find_best_match`: candidates that pass the
eligibility gate and have a strictly positive score, as
`(score, video_id, lowered title)` in search-result order. -/
def scoredCandidates (track artist : PyStr) (items : List SearchItem) :
    List (Int × PyStr × PyStr) :=
  items.filterMap (fun it =>
    if fuzzyContains (pyLower it.title) (pyLower track) then
      if candidateScore track artist it > 0 then
        some (candidateScore track artist it, it.videoId, pyLower it.title)
      else none
    else none)

/-- Model of `_find_best_match`'s selection: `scored.sort(reverse=True,
key=score)` is stable, so the winner is the first candidate attaining
the maximal score. -/
def findBestMatch (track artist : PyStr) (items : List SearchItem) : Option PyStr :=
  match scoredCandidates track artist items with
  | [] => none
  | x :: xs => some ((xs.foldl (fun best y => if y.1 > best.1 then y else best) x).2.1)

/-! ## The sync run (`SyncEngine.sync` and its helpers)

Provider network behavior is abstracted by its observable outcomes:

* `SpotifyClient.get_playlist_tracks` returns a list or `None`, or
  raises (`SpotifyAuthError`/`SpotifySchemaError` pass through its
  `except Exception` handler);
* `YouTubeClient.get_playlist_items` returns a list or `None`, or
  re-raises `YouTubeQuotaExceededError` (`clients/youtube.py` lines
  301-302) — every other exception is swallowed into `None`;
* `YouTubeClient.search_video` returns a video id or `None`, or
  re-raises `YouTubeQuotaExceededError` (lines 179-180);
* each mutating call behaves as a `CallOutcome`, indexed by the call
  count of its phase. -/

/-- A raised Python exception crossing a provider boundary. -/
inductive PyExc where
  | quotaExceeded (msg : PyStr)
  | otherExc (name msg : PyStr)
deriving Repr, DecidableEq

/-- The provider behaviors one run observes. -/
structure Providers where
  spotifyTracks : Except PyExc (Option (List Track))
  ytItems : Except PyExc (Option (List PlaylistItem))
  search : PyStr → PyStr → Except PyExc (Option PyStr)
  insertOut : Nat → CallOutcome
  deleteOut : Nat → CallOutcome

/-- Model of `SyncResult` (`core/models.py`); the wall-clock `duration` field is
outside the embedding. -/
structure SyncResult where
  success : Bool
  tracksAdded : Nat
  tracksRemoved : Nat
  errors : List PyStr
  spotifyCount : Nat
  youtubeCount : Int
deriving Repr, DecidableEq

/-- Model of `SyncResult.failure(error)`. -/
def SyncResult.failure (msg : PyStr) : SyncResult := ⟨false, 0, 0, [msg], 0, 0⟩

/-- Model of `_track_matches_video(track, title)`. -/
def trackMatchesVideo (track : Track) (title : PyStr) : Bool :=
  strContains (pyNormalize title) (pyNormalize track.name)
    && strContains (pyNormalize title) (pyNormalize track.artist)

/-- Python truthiness of an optional string (`if cached:` /
`if video_id:`): `None` and the empty string are falsy. -/
def pyTruthy : Option PyStr → Bool
  | none => false
  | some v => !v.isEmpty

/-- Model of `_resolve_video_id(track, yt_items)`: direct match against the
destination snapshot (refreshes the cache on hit), then cache lookup,
then the provider search (writing through to the cache on success).
Only the search call can raise. -/
def resolveVideoId (P : Providers) (now : Nat) (track : Track)
    (ytItems : List PlaylistItem) (vc : VideoCache) :
    Except PyExc (Option PyStr × VideoCache) :=
  match ytItems.find? (fun item => trackMatchesVideo track item.title) with
  | some item =>
    .ok (some item.videoId, vc.set now track.name track.artist item.videoId)
  | none =>
    match vc.get now track.name track.artist with
    | (cached, vc1) =>
      if pyTruthy cached then .ok (cached, vc1)
      else
        match P.search track.name track.artist with
        | .error e => .error e
        | .ok none => .ok (none, vc1)
        | .ok (some v) =>
          if v.isEmpty then .ok (some v, vc1)
          else .ok (some v, vc1.set now track.name track.artist v)

/-- The error message `_build_target_list` records for an unresolved
track. -/
def noMatchMsg (t : Track) : PyStr :=
  "No match: ".data ++ t.name ++ " by ".data ++ t.artist

/-- Model of `_build_target_list(spotify_tracks, yt_items)`: resolves each track
in order, threading the cache, collecting `(track, video_id)` pairs and
resolution errors.  A raised search exception propagates. -/
def buildTargetList (P : Providers) (now : Nat) :
    List Track → List PlaylistItem → VideoCache →
    Except PyExc (List (Track × PyStr) × List PyStr × VideoCache)
  | [], _, vc => .ok ([], [], vc)
  | t :: rest, ytItems, vc =>
    match resolveVideoId P now t ytItems vc with
    | .error e => .error e
    | .ok (vidOpt, vc1) =>
      match buildTargetList P now rest ytItems vc1 with
      | .error e => .error e
      | .ok (tgt, errs, vc2) =>
        match vidOpt with
        | some v =>
          if v.isEmpty then .ok (tgt, noMatchMsg t :: errs, vc2)
          else .ok ((t, v) :: tgt, errs, vc2)
        | none => .ok (tgt, noMatchMsg t :: errs, vc2)

/-- Model of `SyncEngine.sync(spotify_playlist_id, youtube_playlist_id)`.
A `None` from either fetch yields `SyncResult.failure`; a raised
exception (`.error`) propagates to the caller uncaught — `sync` has no
handler, the CLI entry point (`sync.py`, `main`) does.  Cache `save()`
is file I/O and outside the embedding. -/
def sync (P : Providers) (now : Nat) (vc : VideoCache) : Except PyExc SyncResult :=
  match P.spotifyTracks with
  | .error e => .error e
  | .ok none => .ok (SyncResult.failure "Failed to fetch Spotify playlist".data)
  | .ok (some tracks) =>
    match P.ytItems with
    | .error e => .error e
    | .ok none => .ok (SyncResult.failure "Failed to fetch YouTube playlist".data)
    | .ok (some items) =>
      match buildTargetList P now tracks items vc with
      | .error e => .error e
      | .ok (target, resolveErrors, _) =>
        let ops := computeOperations target items
        if ops.1.isEmpty && ops.2.isEmpty then
          .ok ⟨true, 0, 0, resolveErrors, tracks.length, (items.length : Int)⟩
        else
          let R := executeOperations ops.1 ops.2 P.insertOut P.deleteOut
          .ok ⟨R.errors.isEmpty, R.added, R.removed, resolveErrors ++ R.errors,
               tracks.length, (items.length : Int) + R.added - R.removed⟩

/-! ## Helper lemmas -/

/-- A fold of dict assignments looks up to the most recent assignment of
the key, i.e. the last matching pair, and falls back to the initial
dict. -/
theorem foldl_dictStep (l : List (Nat × PyStr)) (d : PyStr → Option Nat) (k : PyStr) :
    l.foldl dictStep d k =
      match l.reverse.find? (fun p => k == p.2) with
      | some p => some p.1
      | none => d k := by
  induction l generalizing d with
  | nil => simp
  | cons p rest ih =>
    rw [List.foldl_cons, ih (dictStep d p), List.reverse_cons, List.find?_append]
    cases hf : rest.reverse.find? (fun q => k == q.2) with
    | some q => simp [hf]
    | none =>
      by_cases hk : k == p.2 <;> simp [hf, dictStep, List.find?, hk]

/-- The first components of `List.enumFrom n l` are strictly
increasing. -/
theorem pairwise_fst_lt_enumFrom (n : Nat) {α : Type} (l : List α) :
    List.Pairwise (fun p q => p.1 < q.1) (List.enumFrom n l) := by
  induction l generalizing n with
  | nil => simp
  | cons x xs ih =>
    rw [List.enumFrom_cons]
    refine List.Pairwise.cons (fun q hq => ?_) (ih (n + 1))
    exact Nat.lt_of_lt_of_le (Nat.lt_succ_self n) (List.mem_enumFrom hq).1

/-- The first components of `List.enum l` are strictly increasing. -/
theorem pairwise_fst_lt_enum {α : Type} (l : List α) :
    List.Pairwise (fun p q => p.1 < q.1) l.enum :=
  pairwise_fst_lt_enumFrom 0 l

/-- Inserting an element whose key dominates every element of the list
appends it at the end. -/
theorem insertStable_all_le (le : SyncOp → SyncOp → Bool) (x : SyncOp)
    (l : List SyncOp) (h : ∀ y ∈ l, le y x = true) :
    insertStable le x l = l ++ [x] := by
  induction l with
  | nil => rfl
  | cons y ys ih =>
    simp [insertStable, h y (List.mem_cons_self y ys),
      ih (fun z hz => h z (List.mem_cons_of_mem y hz))]

/-- Folding stable insertions of an already-sorted list onto a
compatible accumulator appends the list unchanged. -/
theorem foldl_insertStable (le : SyncOp → SyncOp → Bool) (l acc : List SyncOp)
    (hacc : ∀ x ∈ l, ∀ y ∈ acc, le y x = true)
    (hl : l.Pairwise (fun a b => le a b = true)) :
    l.foldl (fun a x => insertStable le x a) acc = acc ++ l := by
  induction l generalizing acc with
  | nil => simp
  | cons x xs ih =>
    rw [List.foldl_cons,
      insertStable_all_le le x acc (hacc x (List.mem_cons_self x xs))]
    rw [ih (acc ++ [x]) ?compat hl.of_cons]
    · simp
    case compat =>
      intro z hz y hy
      rcases List.mem_append.mp hy with hmem | hmem
      · exact hacc z (List.mem_cons_of_mem x hz) y hmem
      · have hyx : y = x := by simpa using hmem
        subst hyx
        exact (List.pairwise_cons.mp hl).1 z hz

/-- A stable sort leaves an already-sorted list unchanged. -/
theorem stableSort_of_sorted (le : SyncOp → SyncOp → Bool) (l : List SyncOp)
    (hl : l.Pairwise (fun a b => le a b = true)) :
    stableSort le l = l := by
  unfold stableSort
  rw [foldl_insertStable le l [] (by simp) hl]
  simp

/-- Every phase of the executor attempts a prefix of its operation
list. -/
theorem execPhase_trace_prefixOf (fp ap ep : PyStr) (out : Nat → CallOutcome)
    (ops : List SyncOp) :
    ∀ k count errs, (execPhase fp ap ep out ops k count errs).trace <+: ops := by
  induction ops with
  | nil => intro k count errs; simp [execPhase]
  | cons op rest ih =>
    intro k count errs
    cases h : out k with
    | ok =>
      simp only [execPhase, h]
      exact List.cons_prefix_cons.mpr ⟨rfl, ih (k + 1) (count + 1) errs⟩
    | failed =>
      simp only [execPhase, h]
      exact List.cons_prefix_cons.mpr ⟨rfl, ih (k + 1) count _⟩
    | abortError =>
      simp only [execPhase, h]
      exact ⟨rest, rfl⟩
    | raised msg =>
      simp only [execPhase, h]
      split
      · exact ⟨rest, rfl⟩
      · split
        · exact ⟨rest, rfl⟩
        · exact List.cons_prefix_cons.mpr ⟨rfl, ih (k + 1) count _⟩

/-- A phase that did not return early attempted every operation. -/
theorem execPhase_trace_of_not_halted (fp ap ep : PyStr) (out : Nat → CallOutcome)
    (ops : List SyncOp) :
    ∀ k count errs, (execPhase fp ap ep out ops k count errs).halted = false →
      (execPhase fp ap ep out ops k count errs).trace = ops := by
  induction ops with
  | nil => intro k count errs _; simp [execPhase]
  | cons op rest ih =>
    intro k count errs hh
    cases h : out k with
    | ok =>
      simp only [execPhase, h] at hh ⊢
      rw [ih (k + 1) (count + 1) errs hh]
    | failed =>
      simp only [execPhase, h] at hh ⊢
      rw [ih (k + 1) count _ hh]
    | abortError => simp [execPhase, h] at hh
    | raised msg =>
      simp only [execPhase, h] at hh ⊢
      by_cases h1 : (strContains (pyLower msg) "409".data
          || strContains (pyLower msg) "service_unavailable".data) = true
      · rw [if_pos h1] at hh; simp at hh
      · rw [if_neg h1] at hh ⊢
        by_cases h2 : strContains (pyLower msg) "quota".data = true
        · rw [if_pos h2] at hh; simp at hh
        · rw [if_neg h2] at hh ⊢
          simp only [] at hh ⊢
          rw [ih (k + 1) count _ hh]

/-! ## Claim C1 -/

/-- C1 counterexample: for `target = ["A", "A"]` the dict comprehension
`{vid: i for i, vid in enumerate(target)}` records index 1 for "A",
while the first (earliest) occurrence is index 0 — later assignments
overwrite earlier ones, so the claim's "first occurrence wins" is false
on the code. -/
theorem targetPos_first_occurrence_cex :
    buildTargetPos ["A".data, "A".data] "A".data = some 1
      ∧ (["A".data, "A".data]).indexOf "A".data = 0
      ∧ (1 : Nat) ≠ 0 := by
  refine ⟨by decide, by decide, by decide⟩

/-- C1 amended: in step 1 of the reconciliation algorithm the
mediaId-to-target-index map records, for every mediaId, its last
(latest) occurrence in the target list — the last dict assignment
wins. -/
theorem targetPos_records_last_occurrence (target : List PyStr) (k : PyStr) :
    buildTargetPos target k = lastOccIdx target k := by
  unfold buildTargetPos lastOccIdx
  rw [foldl_dictStep]
  cases hf : target.enum.reverse.find? (fun p => k == p.2) <;> simp [hf]

/-! ## Claim C8 -/

/-- C8 counterexample: `("a  b", "x")` and `("a b", "x")` are equal up
to letter case and whitespace (their case-folded, whitespace-collapsed
forms coincide), yet `_make_key` maps them to different cache keys —
the normalization only strips edge whitespace, it does not collapse
interior whitespace. -/
theorem cache_key_whitespace_cex :
    pyNormalize "a  b".data = pyNormalize "a b".data
      ∧ makeKey "a  b".data "x".data ≠ makeKey "a b".data "x".data := by
  refine ⟨by decide, by decide⟩

/-- C8 amended: the cache key normalization is case-folded and
edge-whitespace-trimmed: any two (title, attribute) pairs equal up to
letter case and leading/trailing whitespace produce the same key, hence
`get` and `set` (both of which key through `makeKey`) address the same
cache entry; in particular `("Song", "Artist")` and
`(" song ", "ARTIST")` map to the same entry. -/
theorem cache_key_casefold_trim (t1 a1 t2 a2 : PyStr)
    (ht : pyStrip (pyLower t1) = pyStrip (pyLower t2))
    (ha : pyStrip (pyLower a1) = pyStrip (pyLower a2)) :
    makeKey t1 a1 = makeKey t2 a2 := by
  unfold makeKey
  rw [ht, ha]

/-- Witness for the amended C8 at the pair quoted by the spec. -/
theorem cache_key_casefold_trim_witness :
    pyStrip (pyLower "Song".data) = pyStrip (pyLower " song ".data)
      ∧ makeKey "Song".data "Artist".data = makeKey " song ".data "ARTIST".data :=
  ⟨by decide, cache_key_casefold_trim _ _ _ _ (by decide) (by decide)⟩

/-! ## Claim C9 -/

/-- C9: writing the mediaId already stored under the normalized key
leaves the whole cache state unchanged — the entry, its `cached_at`
timestamp and the dirty flag — so a no-op write neither dirties the
store nor extends the entry's expiry.  (`set` only takes its mutating
branch, which alone sets `dirty`, when the stored value differs.) -/
theorem cache_set_noop_frame (vc : VideoCache) (now : Nat) (track artist vid : PyStr)
    (h : (vc.entries.lookup (makeKey track artist)).map CacheEntry.videoId = some vid) :
    vc.set now track artist vid = vc := by
  unfold VideoCache.set
  simp [h]

/-- Witness: re-writing a stored mapping at a much later time changes
nothing. -/
theorem cache_set_noop_frame_witness :
    ((⟨[(makeKey "Song".data "Artist".data, ⟨"v9".data, 100⟩)], false⟩ : VideoCache).set
        2000000 "Song".data "Artist".data "v9".data)
      = ⟨[(makeKey "Song".data "Artist".data, ⟨"v9".data, 100⟩)], false⟩ :=
  cache_set_noop_frame _ 2000000 _ _ _ (by decide)

/-! ## Claim C6 -/

/-- The four-item destination snapshot `[A, B, C, D]` of the spec's LIS
example. -/
def c6Items : List PlaylistItem :=
  [⟨"i1".data, "A".data, "A".data, [], 0⟩,
   ⟨"i2".data, "B".data, "B".data, [], 1⟩,
   ⟨"i3".data, "C".data, "C".data, [], 2⟩,
   ⟨"i4".data, "D".data, "D".data, [], 3⟩]

/-- The resolved target `[A, C, B, D]` of the spec's LIS example. -/
def c6Target : List (Track × PyStr) :=
  [(⟨"a".data, "x".data, [], []⟩, "A".data),
   (⟨"c".data, "x".data, [], []⟩, "C".data),
   (⟨"b".data, "x".data, [], []⟩, "B".data),
   (⟨"d".data, "x".data, [], []⟩, "D".data)]

/-- C6: for `current = [A,B,C,D]`, `target = [A,C,B,D]`, the algorithm
keeps a 3-element subsequence already in correct relative order (the
LIS `A, B, D`, current indices 0, 1, 3) and the computed plan is
exactly one insert (C at target position 1) plus exactly one delete
(the entry holding C), never two of each. -/
theorem lis_example_one_insert_one_delete :
    (findLisIndices ["A".data, "B".data, "C".data, "D".data]
        ["A".data, "C".data, "B".data, "D".data]).length = 3
      ∧ (computeOperations c6Target c6Items).1
          = [⟨"insert".data, 1, "C".data, [], "c by x".data⟩]
      ∧ (computeOperations c6Target c6Items).2
          = [⟨"delete".data, 2, "C".data, "i3".data, "C".data⟩] := by
  refine ⟨by decide, by decide, by decide⟩

/-! ## Claim C4 -/

/-- C4: if the destination provider raises the ambiguous-state failure
(`SyncAbortError`, its 409 "service unavailable, retry-unsafe" signal)
on the second of five insert operations, execution halts immediately:
the result preserves the partial count `added = 1`, attempts zero
deletes (`removed = 0`, no delete in the trace), and records the
abort-tagged error. -/
theorem abort_on_second_insert (a b c d e : SyncOp) (deletes : List SyncOp)
    (insOut delOut : Nat → CallOutcome)
    (h0 : insOut 0 = .ok) (h1 : insOut 1 = .abortError) :
    executeOperations [a, b, c, d, e] deletes insOut delOut
      = ⟨1, 0, ["ABORT: 409 error on add ".data ++ b.title], [a, b]⟩ := by
  unfold executeOperations
  simp [execInserts, execPhase, h0, h1]

/-- Witness: a concrete five-insert plan whose second call aborts. -/
theorem abort_on_second_insert_witness :
    executeOperations
        [⟨"insert".data, 0, "v1".data, [], "T1".data⟩,
         ⟨"insert".data, 1, "v2".data, [], "T2".data⟩,
         ⟨"insert".data, 2, "v3".data, [], "T3".data⟩,
         ⟨"insert".data, 3, "v4".data, [], "T4".data⟩,
         ⟨"insert".data, 4, "v5".data, [], "T5".data⟩]
        [⟨"delete".data, 0, "w1".data, "j1".data, "U1".data⟩]
        (fun n => if n = 0 then .ok else .abortError) (fun _ => .ok)
      = ⟨1, 0, ["ABORT: 409 error on add T2".data],
         [⟨"insert".data, 0, "v1".data, [], "T1".data⟩,
          ⟨"insert".data, 1, "v2".data, [], "T2".data⟩]⟩ :=
  abort_on_second_insert _ _ _ _ _ _ _ _ (by decide) (by decide)

/-! ## Claim C3 -/

/-- C3: a quota-exhaustion failure (`YouTubeQuotaExceededError`, whose
`str(e)` contains "quota" and none of the 409 markers) raised on any
single insert or delete halts the phase at that operation — no further
operation of the phase is attempted, the partial count is preserved,
and an error carrying the exception text (containing "quota", the very
marker the engine distinguishes it by) is appended; and whenever the
insert phase halts, the delete phase is never entered, so no operation
of either kind follows. -/
theorem quota_halts_execution (op : SyncOp) (rest : List SyncOp)
    (out : Nat → CallOutcome) (k count removed : Nat) (errs : List PyStr) (msg : PyStr)
    (hout : out k = .raised msg)
    (hq : strContains (pyLower msg) "quota".data = true)
    (h409 : strContains (pyLower msg) "409".data = false)
    (hsa : strContains (pyLower msg) "service_unavailable".data = false) :
    execInserts out (op :: rest) k count errs
        = ⟨count, errs ++ ["Error adding ".data ++ op.title ++ ": ".data ++ msg], true, [op]⟩
      ∧ execDeletes out (op :: rest) k removed errs
        = ⟨removed, errs ++ ["Error removing ".data ++ op.title ++ ": ".data ++ msg], true, [op]⟩
      ∧ ∀ (ins dls : List SyncOp) (io dout : Nat → CallOutcome),
          (execInserts io ins 0 0 []).halted = true →
            (executeOperations ins dls io dout).removed = 0
              ∧ (executeOperations ins dls io dout).trace = (execInserts io ins 0 0 []).trace := by
  refine ⟨?_, ?_, ?_⟩
  · simp [execInserts, execPhase, hout, hq, h409, hsa]
  · simp [execDeletes, execPhase, hout, hq, h409, hsa]
  · intro ins dls io dout hh
    simp [executeOperations, hh]

/-- Witness: a concrete quota exception on the first call of a phase. -/
theorem quota_halts_execution_witness :
    execInserts (fun _ => .raised "Quota exceeded: daily limit".data)
        [⟨"insert".data, 0, "v1".data, [], "T1".data⟩,
         ⟨"insert".data, 1, "v2".data, [], "T2".data⟩] 0 0 []
      = ⟨0, ["Error adding T1: Quota exceeded: daily limit".data], true,
         [⟨"insert".data, 0, "v1".data, [], "T1".data⟩]⟩ := by
  have h := quota_halts_execution
    ⟨"insert".data, 0, "v1".data, [], "T1".data⟩
    [⟨"insert".data, 1, "v2".data, [], "T2".data⟩]
    (fun _ => .raised "Quota exceeded: daily limit".data) 0 0 0 []
    "Quota exceeded: daily limit".data
    rfl (by decide) (by decide) (by decide)
  exact h.1

/-! ## Claim C5 -/

/-- The unsorted insert list already has strictly increasing target
positions: each op's `position` is its target-list index. -/
theorem insertOpsUnsorted_pairwise (target : List (Track × PyStr)) (lvs : List PyStr) :
    List.Pairwise (fun a b : SyncOp => a.position < b.position)
      (insertOpsUnsorted target lvs) := by
  unfold insertOpsUnsorted
  refine List.pairwise_filterMap.mpr ?_
  refine (pairwise_fst_lt_enum target).imp ?_
  intro a b hab opA hA opB hB
  split at hA
  · simp only [Option.mem_def, Option.some.injEq] at hA
    split at hB
    · simp only [Option.mem_def, Option.some.injEq] at hB
      rw [← hA, ← hB]
      exact hab
    · simp at hB
  · simp at hA

/-- The insert component of the computed plan has strictly increasing
target positions. -/
theorem computeOperations_inserts_sorted (target : List (Track × PyStr))
    (ytItems : List PlaylistItem) :
    List.Pairwise (fun a b : SyncOp => a.position < b.position)
      (computeOperations target ytItems).1 := by
  have hfst : (computeOperations target ytItems).1
      = stableSort (fun a b => decide (a.position ≤ b.position))
          (insertOpsUnsorted target
            ((findLisIndices (ytItems.map PlaylistItem.videoId) (target.map Prod.snd)).filterMap
              (fun i => (ytItems.map PlaylistItem.videoId).get? i))) := rfl
  rw [hfst]
  have hpair := insertOpsUnsorted_pairwise target
    ((findLisIndices (ytItems.map PlaylistItem.videoId) (target.map Prod.snd)).filterMap
      (fun i => (ytItems.map PlaylistItem.videoId).get? i))
  rw [stableSort_of_sorted _ _ (hpair.imp (fun h => by simpa using Nat.le_of_lt h))]
  exact hpair

/-- C5: for every computed operation set, execution attempts a prefix
of `inserts ++ deletes` — hence every insert call precedes every delete
call — and the insert list is strictly ascending by target position.
(The non-emptiness hypothesis mirrors the claim; the property holds of
every plan.) -/
theorem inserts_before_deletes_ascending (target : List (Track × PyStr))
    (ytItems : List PlaylistItem) (insOut delOut : Nat → CallOutcome)
    (_hne : (computeOperations target ytItems).1 ≠ []
      ∨ (computeOperations target ytItems).2 ≠ []) :
    List.Pairwise (fun a b : SyncOp => a.position < b.position)
        (computeOperations target ytItems).1
      ∧ (executeOperations (computeOperations target ytItems).1
            (computeOperations target ytItems).2 insOut delOut).trace
          <+: (computeOperations target ytItems).1 ++ (computeOperations target ytItems).2 := by
  refine ⟨computeOperations_inserts_sorted target ytItems, ?_⟩
  unfold executeOperations execInserts execDeletes
  by_cases hh : (execPhase "Failed to add: ".data "ABORT: 409 error on add ".data
      "Error adding ".data insOut (computeOperations target ytItems).1 0 0 []).halted = true
  · simp only [hh, if_true]
    exact (execPhase_trace_prefixOf _ _ _ insOut _ 0 0 []).trans
      (List.prefix_append _ _)
  · simp only [hh]
    simp only [if_false, Bool.false_eq_true]
    rw [execPhase_trace_of_not_halted _ _ _ insOut _ 0 0 []
      (Bool.not_eq_true _ ▸ hh)]
    obtain ⟨t, ht⟩ := execPhase_trace_prefixOf
      "Failed to remove: ".data "ABORT: 409 error on remove ".data "Error removing ".data
      delOut (computeOperations target ytItems).2 0 0
      (execPhase "Failed to add: ".data "ABORT: 409 error on add ".data
        "Error adding ".data insOut (computeOperations target ytItems).1 0 0 []).errors
    exact ⟨t, by rw [List.append_assoc, ht]⟩

/-- Witness for C5: destination empty, two resolved tracks — the plan
is two inserts at positions 0 and 1, no deletes, and the trace is the
plan itself. -/
theorem inserts_before_deletes_ascending_witness :
    ((computeOperations
        [(⟨"T1".data, "A1".data, [], []⟩, "v1".data),
         (⟨"T2".data, "A2".data, [], []⟩, "v2".data)] []).1 ≠ []
      ∨ (computeOperations
        [(⟨"T1".data, "A1".data, [], []⟩, "v1".data),
         (⟨"T2".data, "A2".data, [], []⟩, "v2".data)] []).2 ≠ [])
    ∧ (List.Pairwise (fun a b : SyncOp => a.position < b.position)
        (computeOperations
          [(⟨"T1".data, "A1".data, [], []⟩, "v1".data),
           (⟨"T2".data, "A2".data, [], []⟩, "v2".data)] []).1
      ∧ (executeOperations
            (computeOperations
              [(⟨"T1".data, "A1".data, [], []⟩, "v1".data),
               (⟨"T2".data, "A2".data, [], []⟩, "v2".data)] []).1
            (computeOperations
              [(⟨"T1".data, "A1".data, [], []⟩, "v1".data),
               (⟨"T2".data, "A2".data, [], []⟩, "v2".data)] []).2
            (fun _ => .ok) (fun _ => .ok)).trace
          <+: (computeOperations
              [(⟨"T1".data, "A1".data, [], []⟩, "v1".data),
               (⟨"T2".data, "A2".data, [], []⟩, "v2".data)] []).1
            ++ (computeOperations
              [(⟨"T1".data, "A1".data, [], []⟩, "v1".data),
               (⟨"T2".data, "A2".data, [], []⟩, "v2".data)] []).2) :=
  ⟨by decide,
   inserts_before_deletes_ascending _ _ (fun _ => .ok) (fun _ => .ok) (by decide)⟩

/-! ## Claim C7 -/

/-- The spec's "Song Name (Official Audio)" / "ArtistVEVO" candidate. -/
def officialCand : SearchItem :=
  ⟨"v1".data, "Song Name (Official Audio)".data, "ArtistVEVO".data⟩

/-- The spec's "Song Name (Cover)" candidate, over an arbitrary
channel. -/
def coverCand (channel : PyStr) : SearchItem :=
  ⟨"v2".data, "Song Name (Cover)".data, channel⟩

/-- C7: for source `(title="Song Name", attribute="Artist")` the
official-audio candidate from "ArtistVEVO" (score 23) scores strictly
higher than the cover candidate, whatever the cover's channel
(score at most 8); and every candidate whose total score is
non-positive is absent from the `scored` selection list. -/
theorem scoring_official_over_cover_and_positive :
    (∀ ch : PyStr,
        candidateScore "Song Name".data "Artist".data (coverCand ch)
          < candidateScore "Song Name".data "Artist".data officialCand)
      ∧ ∀ (track artist : PyStr) (items : List SearchItem) (s : Int) (v t : PyStr),
          (s, v, t) ∈ scoredCandidates track artist items → 0 < s := by
  constructor
  · intro ch
    have hoff : candidateScore "Song Name".data "Artist".data officialCand = 23 := by
      decide
    rw [hoff]
    unfold candidateScore coverCand
    cases hfc : fuzzyContains (pyLower ch) (pyLower "Artist".data) <;>
      cases hv : strContains (pyLower ch) "vevo".data <;>
        simp [hfc, hv,
          (show fuzzyContains (pyLower "Song Name (Cover)".data)
            (pyLower "Artist".data) = false by decide),
          (show strContains (pyLower "Song Name (Cover)".data)
            "official".data = false by decide),
          (show strContains (pyLower "Song Name (Cover)".data)
            "audio".data = false by decide),
          (show strContains (pyLower "Song Name (Cover)".data)
            "cover".data = true by decide),
          (show strContains (pyLower "Song Name (Cover)".data)
            "remix".data = false by decide),
          (show strContains (pyLower "Song Name (Cover)".data)
            "live".data = false by decide),
          (show strContains (pyLower "Song Name (Cover)".data)
            "karaoke".data = false by decide),
          (show strContains (pyLower "Song Name (Cover)".data)
            "instrumental".data = false by decide)]
  · intro track artist items s v t hmem
    unfold scoredCandidates at hmem
    rw [List.mem_filterMap] at hmem
    obtain ⟨it, _, heq⟩ := hmem
    split at heq
    · split at heq
      · rename_i hpos
        simp only [Option.some.injEq, Prod.mk.injEq] at heq
        rw [← heq.1]
        exact hpos
      · exact absurd heq (by simp)
    · exact absurd heq (by simp)

/-- Witness: the official candidate enters the scored list with its
positive score 23. -/
theorem scoring_positive_witness :
    (((23 : Int), "v1".data, "song name (official audio)".data)
        ∈ scoredCandidates "Song Name".data "Artist".data [officialCand])
      ∧ (0 : Int) < 23 :=
  ⟨by decide,
   scoring_official_over_cover_and_positive.2 "Song Name".data "Artist".data
     [officialCand] 23 "v1".data "song name (official audio)".data (by decide)⟩

/-! ## Claim C2 -/

/-- A run whose YouTube playlist fetch raises
`YouTubeQuotaExceededError` (which `get_playlist_items` re-raises
instead of converting to `None`). -/
def quotaProviders : Providers :=
  ⟨.ok (some []), .error (.quotaExceeded "Quota exceeded: daily limit".data),
   fun _ _ => .ok none, fun _ => .ok, fun _ => .ok⟩

/-- C2 counterexample: when the destination playlist fetch raises the
quota-exhaustion exception, `sync` — which installs no handler —
delivers the raw exception to its caller instead of a structured
result, so "never a raw exception" is false for the code: the CLI entry
point (`sync.py`, `main`) even catches `YouTubeQuotaExceededError`
around `engine.sync(...)` by design. -/
theorem sync_quota_fetch_raises_cex :
    sync quotaProviders 0 ⟨[], false⟩
      = .error (.quotaExceeded "Quota exceeded: daily limit".data) := rfl

/-- If the search provider never raises, `_resolve_video_id` returns
normally. -/
theorem resolveVideoId_ok (P : Providers) (now : Nat) (t : Track)
    (ytItems : List PlaylistItem) (vc : VideoCache)
    (hq : ∀ e, P.search t.name t.artist ≠ .error e) :
    ∃ o, resolveVideoId P now t ytItems vc = .ok o := by
  unfold resolveVideoId
  cases hfind : ytItems.find? (fun item => trackMatchesVideo t item.title) with
  | some item => exact ⟨_, rfl⟩
  | none =>
    cases hget : vc.get now t.name t.artist with
    | mk cached vc1 =>
      dsimp only
      by_cases htr : pyTruthy cached = true
      · rw [if_pos htr]
        exact ⟨_, rfl⟩
      · rw [if_neg htr]
        cases hsr : P.search t.name t.artist with
        | error e => exact absurd hsr (hq e)
        | ok vo =>
          cases vo with
          | none => exact ⟨_, rfl⟩
          | some v =>
            dsimp only
            by_cases hv : v.isEmpty = true
            · rw [if_pos hv]
              exact ⟨_, rfl⟩
            · rw [if_neg hv]
              exact ⟨_, rfl⟩

/-- If the search provider never raises, `_build_target_list` returns
normally. -/
theorem buildTargetList_ok (P : Providers) (now : Nat) (tracks : List Track)
    (ytItems : List PlaylistItem) (vc : VideoCache)
    (hq : ∀ n a e, P.search n a ≠ .error e) :
    ∃ out, buildTargetList P now tracks ytItems vc = .ok out := by
  induction tracks generalizing vc with
  | nil => exact ⟨_, rfl⟩
  | cons t rest ih =>
    obtain ⟨⟨vidOpt, vc1⟩, hr⟩ :=
      resolveVideoId_ok P now t ytItems vc (fun e => hq t.name t.artist e)
    obtain ⟨⟨tgt, errs, vc2⟩, hrest⟩ := ih vc1
    unfold buildTargetList
    rw [hr]
    dsimp only
    rw [hrest]
    dsimp only
    cases vidOpt with
    | some v =>
      dsimp only
      by_cases hv : v.isEmpty = true
      · rw [if_pos hv]
        exact ⟨_, rfl⟩
      · rw [if_neg hv]
        exact ⟨_, rfl⟩
    | none => exact ⟨_, rfl⟩

/-- C2 amended: `sync` returns a structured `SyncResult` for every
provider behavior in which the two playlist fetches and the search
calls return normally (fetch failures reported as `None`, resolution
failures, mutating-call failures, aborts and quota errors during
execution all included) — but a quota-exhaustion exception raised
during playlist fetch or search propagates to the caller as a raw
exception (see the counterexample). -/
theorem sync_structured_result_when_no_raise (P : Providers) (now : Nat)
    (vc : VideoCache)
    (hs : ∀ e, P.spotifyTracks ≠ .error e)
    (hy : ∀ e, P.ytItems ≠ .error e)
    (hq : ∀ n a e, P.search n a ≠ .error e) :
    ∃ r, sync P now vc = .ok r := by
  unfold sync
  cases hsp : P.spotifyTracks with
  | error e => exact absurd hsp (hs e)
  | ok o =>
    cases o with
    | none => exact ⟨_, rfl⟩
    | some tracks =>
      cases hyt : P.ytItems with
      | error e => exact absurd hyt (hy e)
      | ok oi =>
        cases oi with
        | none => exact ⟨_, rfl⟩
        | some items =>
          obtain ⟨⟨target, rerrs, vc2⟩, hb⟩ :=
            buildTargetList_ok P now tracks items vc hq
          dsimp only
          rw [hb]
          dsimp only
          split
          · exact ⟨_, rfl⟩
          · exact ⟨_, rfl⟩

/-- The one-track, empty-destination, all-successful provider
behavior. -/
def t1 : Track := ⟨"T1".data, "A1".data, [], "s1".data⟩

/-- Providers for which every call returns normally. -/
def okProviders : Providers :=
  ⟨.ok (some [t1]), .ok (some []), fun _ _ => .ok (some "v1".data),
   fun _ => .ok, fun _ => .ok⟩

/-- Witness for the amended C2. -/
theorem sync_structured_result_witness :
    ∃ r, sync okProviders 0 ⟨[], false⟩ = .ok r :=
  sync_structured_result_when_no_raise okProviders 0 ⟨[], false⟩
    (fun e h => by simp [okProviders] at h)
    (fun e h => by simp [okProviders] at h)
    (fun n a e h => by simp [okProviders] at h)

/-! ## Claim C10 -/

/-- C10: whenever both playlist fetches succeed and resolution
completes (returning the resolved `target` and the resolution errors
`rerrs`), the run returns a structured result whose `success` flag is
exactly "the execution phase recorded no errors": the error list is
`rerrs ++ execution errors`, yet only the execution errors decide
`success`, so resolution failures never make it false — including the
no-op case, where the execution of the empty plan trivially records no
errors and `success` is true. -/
theorem sync_success_iff_no_exec_errors (P : Providers) (now : Nat)
    (vc : VideoCache) (tracks : List Track) (items : List PlaylistItem)
    (target : List (Track × PyStr)) (rerrs : List PyStr) (vcOut : VideoCache)
    (hs : P.spotifyTracks = .ok (some tracks))
    (hy : P.ytItems = .ok (some items))
    (hb : buildTargetList P now tracks items vc = .ok (target, rerrs, vcOut)) :
    sync P now vc = .ok
      ⟨(executeOperations (computeOperations target items).1
          (computeOperations target items).2 P.insertOut P.deleteOut).errors.isEmpty,
       (executeOperations (computeOperations target items).1
          (computeOperations target items).2 P.insertOut P.deleteOut).added,
       (executeOperations (computeOperations target items).1
          (computeOperations target items).2 P.insertOut P.deleteOut).removed,
       rerrs ++ (executeOperations (computeOperations target items).1
          (computeOperations target items).2 P.insertOut P.deleteOut).errors,
       tracks.length,
       (items.length : Int)
         + (executeOperations (computeOperations target items).1
             (computeOperations target items).2 P.insertOut P.deleteOut).added
         - (executeOperations (computeOperations target items).1
             (computeOperations target items).2 P.insertOut P.deleteOut).removed⟩ := by
  unfold sync
  simp only [hs, hy, hb]
  by_cases hni : ((computeOperations target items).1.isEmpty
      && (computeOperations target items).2.isEmpty) = true
  · have h1 : (computeOperations target items).1 = [] :=
      List.isEmpty_iff.mp (Bool.and_eq_true_iff.mp hni).1
    have h2 : (computeOperations target items).2 = [] :=
      List.isEmpty_iff.mp (Bool.and_eq_true_iff.mp hni).2
    rw [if_pos hni]
    rw [h1, h2]
    simp [executeOperations, execInserts, execDeletes, execPhase]
  · rw [if_neg hni]

/-- Witness for C10: the resolved one-insert run succeeds with
`success = true` and no errors. -/
theorem sync_success_iff_no_exec_errors_witness :
    buildTargetList okProviders 0 [t1] [] ⟨[], false⟩
        = .ok ([(t1, "v1".data)], [],
            ⟨[(makeKey "T1".data "A1".data, ⟨"v1".data, 0⟩)], true⟩)
      ∧ sync okProviders 0 ⟨[], false⟩ = .ok
        ⟨(executeOperations (computeOperations [(t1, "v1".data)] []).1
            (computeOperations [(t1, "v1".data)] []).2
            okProviders.insertOut okProviders.deleteOut).errors.isEmpty,
         (executeOperations (computeOperations [(t1, "v1".data)] []).1
            (computeOperations [(t1, "v1".data)] []).2
            okProviders.insertOut okProviders.deleteOut).added,
         (executeOperations (computeOperations [(t1, "v1".data)] []).1
            (computeOperations [(t1, "v1".data)] []).2
            okProviders.insertOut okProviders.deleteOut).removed,
         [] ++ (executeOperations (computeOperations [(t1, "v1".data)] []).1
            (computeOperations [(t1, "v1".data)] []).2
            okProviders.insertOut okProviders.deleteOut).errors,
         [t1].length,
         (([] : List PlaylistItem).length : Int)
           + (executeOperations (computeOperations [(t1, "v1".data)] []).1
               (computeOperations [(t1, "v1".data)] []).2
               okProviders.insertOut okProviders.deleteOut).added
           - (executeOperations (computeOperations [(t1, "v1".data)] []).1
               (computeOperations [(t1, "v1".data)] []).2
               okProviders.insertOut okProviders.deleteOut).removed⟩ :=
  ⟨rfl,
   sync_success_iff_no_exec_errors okProviders 0 ⟨[], false⟩ [t1] []
     [(t1, "v1".data)] []
     ⟨[(makeKey "T1".data "A1".data, ⟨"v1".data, 0⟩)], true⟩
     rfl rfl rfl⟩

end SpotifyYtSync
